import Mathlib

/-!
Verification development for the paanj-cloud/client-go SDK, focused on the
WebSocket connection/event-dispatch component (ClientWebSocketClient in
websocket_client.go, full variant embedded in README.md lines 239-454).
Pure shallow embedding: JSON values are an inductive type, the Go map
semantics (last write wins, lookup by key) are modelled on association
lists, and the stateful client is explicit state passing with the dial and
write effects supplied as parameters.
-/

namespace Client

/-- JSON values as decoded by Go encoding/json into interface values:
null, booleans, numbers, strings, arrays and objects. Numbers are modelled
as integers (Go decodes to float64; no claim in scope depends on
non-integer numerics). An object is a field list; Go object decoding
collapses duplicate keys, last value wins, which toMap below models. -/
inductive Json where
  | null : Json
  | bool (b : Bool) : Json
  | num (n : Int) : Json
  | str (s : String) : Json
  | arr (elems : List Json) : Json
  | obj (fields : List (String × Json)) : Json

/-- A decoded Go map of type map string to interface, represented as an
association list with unique keys (the constructors below preserve key
uniqueness). -/
abbrev JMap := List (String × Json)

/-- Lookup in a decoded map: first matching key (maps built by jset and
toMap have unique keys, so this is the Go map read m[k]). -/
def jlookup : JMap → String → Option Json
  | [], _ => none
  | (k', v) :: rest, k => if k' = k then some v else jlookup rest k

/-- Go map write m[k] = v: the binding of k is replaced, or appended when
absent. Maps built from the empty map by jset have unique keys, so
replacing the first matching binding is exactly the map update. -/
def jset : JMap → String → Json → JMap
  | [], k, v => [(k, v)]
  | (k', v') :: rest, k, v =>
    if k' = k then (k, v) :: rest else (k', v') :: jset rest k v

/-- Go object decoding into a map: fields are processed in order and each
write overwrites any earlier binding of the same key (duplicate keys in
the wire object collapse, last value wins). -/
def toMap (fields : List (String × Json)) : JMap :=
  fields.foldl (fun m p => jset m p.1 p.2) []

/-- An inbound wire frame: either a byte sequence that is not valid JSON,
or a valid JSON document with the given value. -/
inductive Frame where
  | invalid : Frame
  | json (v : Json) : Frame

/-- Decoding a frame into the generic envelope struct of listen, Go's
json.Unmarshal into a struct with fields Type string (tag "type") and
Data interface (tag "data"): fails on invalid JSON and on non-object,
non-null documents; on an object, the "type" key must be a string (a
value of another type is an unmarshal type error; a JSON null or a
missing key leaves the zero value, the empty string), and "data" takes
the raw value of the "data" key, null when absent. Field names are
matched exactly (Go also accepts a case-insensitive match; no claim in
scope involves mixed-case keys). -/
def decodeEnvelope : Frame → Option (String × Json)
  | .invalid => none
  | .json (.obj fields) =>
    let m := toMap fields
    let data := (jlookup m "data").getD .null
    match jlookup m "type" with
    | some (.str t) => some (t, data)
    | some .null => some ("", data)
    | some _ => none
    | none => some ("", data)
  | .json .null => some ("", .null)
  | .json _ => none

/-- Decoding a frame as a generic key/value map, Go's json.Unmarshal into
a map from string to interface: succeeds exactly on objects (and on null,
which leaves the map nil, read as empty). -/
def decodeObject : Frame → Option JMap
  | .json (.obj fields) => some (toMap fields)
  | .json .null => some []
  | _ => none

/-- The transformation listen applies to a decoded message map: copy every
field, then add the aliases - senderId from source, conversationId from
conversationID, content from message - each only when the original key is
present. The alias writes are Go map assignments, so they overwrite any
field of the same name copied from the original. -/
def transformMsg (msgData : JMap) : JMap :=
  let t := msgData
  let t := match jlookup msgData "source" with
    | some v => jset t "senderId" v
    | none => t
  let t := match jlookup msgData "conversationID" with
    | some v => jset t "conversationId" v
    | none => t
  match jlookup msgData "message" with
  | some v => jset t "content" v
  | none => t

/-- The event handler table eventHandlers: a Go map from event name to the
ordered slice of registered callbacks. Handlers are abstract values of a
type H (closures are opaque; dispatch order and payloads are what the
claims speak about). Association list with unique keys. -/
abbrev Registry (H : Type) := List (String × List H)

/-- Go map read eventHandlers[e]: the registered slice, nil (empty) when
the key is absent. -/
def regGet : Registry H → String → List H
  | [], _ => []
  | (e', hs) :: rest, e => if e' = e then hs else regGet rest e

/-- The method On: eventHandlers[event] = append(eventHandlers[event], callback).
Appends to the slice for the event, creating it if absent. -/
def On : Registry H → String → H → Registry H
  | [], e, h => [(e, [h])]
  | (e', hs) :: rest, e, h =>
    if e' = e then (e', hs ++ [h]) :: rest else (e', hs) :: On rest e h

/-- What one iteration of the listen loop does with a frame, observably:
the handler invocations it spawns (in initiation order, each a handler
paired with its payload) and the log lines it writes. -/
structure RouteResult (H : Type) where
  dispatches : List (H × Json)
  logs : List String

/-- The frame-classification body of the listen loop (README.md embedded
websocket client, lines 321-421): decode the generic envelope, discarding
the frame on failure; for type "message" re-decode as a map, apply
transformMsg, dispatch the transformed map to the "message.create"
handlers and, when the transformed conversationId is a string id, also to
the "conversation:id:message.create" handlers; for "event" dispatch the
envelope data under the type; for "subscribed" only log; for "pong" do
nothing; for any other type dispatch the envelope data under the type. -/
def routeFrame (r : Registry H) (f : Frame) : RouteResult H :=
  match decodeEnvelope f with
  | none => ⟨[], []⟩
  | some (ty, data) =>
    if ty = "message" then
      match decodeObject f with
      | none => ⟨[], []⟩
      | some msgData =>
        let t := transformMsg msgData
        let base := (regGet r "message.create").map (fun h => (h, Json.obj t))
        let conv :=
          match jlookup t "conversationId" with
          | some (.str cid) =>
            (regGet r ("conversation:" ++ cid ++ ":message.create")).map
              (fun h => (h, Json.obj t))
          | _ => []
        ⟨base ++ conv, []⟩
    else if ty = "event" then
      ⟨(regGet r ty).map (fun h => (h, data)), []⟩
    else if ty = "subscribed" then
      ⟨[], ["Subscribed to events"]⟩
    else if ty = "pong" then
      ⟨[], []⟩
    else
      ⟨(regGet r ty).map (fun h => (h, data)), []⟩

/-- The method Emit: look up the handlers registered for the event and
spawn each with the payload, in slice order. -/
def Emit (r : Registry H) (e : String) (d : Json) : List (H × Json) :=
  (regGet r e).map (fun h => (h, d))

/-- Several successive iterations of the listen loop over a list of
inbound frames, with the handler table fixed: the loop routes each frame
independently and keeps no per-frame state, so the dispatch trace is the
concatenation of the per-frame dispatches. -/
def listenFrames (r : Registry H) (fs : List Frame) : List (H × Json) :=
  fs.foldl (fun acc f => acc ++ (routeFrame r f).dispatches) []

/-- The state of a ClientWebSocketClient: configuration fields, the socket
handle (conn, an abstract handle number or none for the nil pointer), the
connection flag and the handler table. The mutex is not modelled: claims
in scope concern the sequential behaviour of single operations, each of
which holds the lock for its state accesses. -/
structure WSClient (H : Type) where
  apiKey : String
  wsUrl : String
  accessToken : String
  conn : Option Nat
  isConnected : Bool
  eventHandlers : Registry H
  autoReconnect : Bool
  reconnectInterval : Nat
  maxReconnectAttempts : Int

/-- Outcome of websocket.DefaultDialer.Dial for a given URL, supplied by
the environment: a fresh socket handle, or a dial error with its message. -/
inductive DialResult where
  | ok (handle : Nat) : DialResult
  | err (msg : String) : DialResult

/-- Everything observable about one call to Connect: the state afterwards,
the returned error (none is the nil return), the URL dialed when a dial
was attempted at all, and whether a listen goroutine was started. -/
structure ConnectOutcome (H : Type) where
  state : WSClient H
  error : Option String
  dialedUrl : Option String
  startedReadLoop : Bool

/-- The method Connect: under the lock, return nil at once when already
connected; otherwise build the URL wsUrl/ws?token=accessToken, dial it,
return the dial error on failure leaving the state untouched, and on
success install the socket handle, set isConnected and start the listen
goroutine. The dial behaviour is a parameter from URL to DialResult. -/
def Connect (c : WSClient H) (dial : String → DialResult) : ConnectOutcome H :=
  if c.isConnected then
    ⟨c, none, none, false⟩
  else
    let url := c.wsUrl ++ "/ws?token=" ++ c.accessToken
    match dial url with
    | .err e => ⟨c, some e, some url, false⟩
    | .ok h => ⟨{ c with conn := some h, isConnected := true }, none, some url, true⟩

/-- The method Disconnect: under the lock, when a socket handle is
present, close it and clear isConnected; a nil handle makes the call a
no-op. The handle field itself is not reset to nil by the source. -/
def Disconnect (c : WSClient H) : WSClient H :=
  match c.conn with
  | some _ => { c with isConnected := false }
  | none => c

/-- The errors Send can return: the fmt.Errorf("websocket not connected")
failure when isConnected is false, or the error of conn.WriteJSON. -/
inductive SendError where
  | notConnected : SendError
  | transport (msg : String) : SendError

/-- The method Send: under the lock, fail with the not-connected error
without touching the socket when isConnected is false; otherwise invoke
conn.WriteJSON with the payload, which serializes it and writes it as one
frame. Returns the error (none is nil) and the list of frames handed to
the socket write (empty when no write was attempted). The write behaviour
is a parameter giving conn.WriteJSON's error for the payload. -/
def Send (c : WSClient H) (payload : Json) (write : Json → Option String) :
    Option SendError × List Json :=
  if c.isConnected then
    match write payload with
    | none => (none, [payload])
    | some e => (some (.transport e), [payload])
  else
    (some .notConnected, [])

/-- Everything observable about the deferred teardown block of listen,
which runs when the read loop exits on a read error: the state afterwards,
the interval slept before redialing (none when no reconnect), the number
of Connect calls made, and the URL dialed if any. -/
structure TeardownOutcome (H : Type) where
  state : WSClient H
  sleptFor : Option Nat
  connectAttempts : Nat
  dialedUrl : Option String

/-- The deferred block of listen: clear isConnected, then, only when
autoReconnect is set, sleep for reconnectInterval once and call Connect
once. No field other than autoReconnect and reconnectInterval is
consulted; in particular maxReconnectAttempts is not read. -/
def reconnectTeardown (c : WSClient H) (dial : String → DialResult) : TeardownOutcome H :=
  let c1 := { c with isConnected := false }
  if c1.autoReconnect then
    let o := Connect c1 dial
    ⟨o.state, some c1.reconnectInterval, 1, o.dialedUrl⟩
  else
    ⟨c1, none, 0, none⟩

/-- From the source: every handler invocation in listen and Emit is a bare
go statement, go handler(payload); no deferred recover is installed around
any of them (the word recover does not occur in the file). -/
def handlerRecoverInstalled : Bool := false

/-- Go runtime rule (Go language specification, Handling panics; also the
runtime documentation): a panic that reaches the top of a goroutine
without being recovered terminates the whole program. So a dispatch kills
the process exactly when some spawned handler panics on its payload and no
recover wrapper is installed. The predicate panics gives each handler's
behaviour on each payload. -/
def dispatchCrashesProcess (panics : H → Json → Bool) (dispatches : List (H × Json)) : Bool :=
  !handlerRecoverInstalled && dispatches.any (fun p => panics p.1 p.2)

/-- One listen iteration together with the fate of the read loop: the
route result of the frame, and whether the read loop is still alive
afterwards (the loop shares the process with the handler goroutines, so
it survives exactly when the dispatch did not crash the process). -/
def listenStep (r : Registry H) (f : Frame) (panics : H → Json → Bool) :
    RouteResult H × Bool :=
  let res := routeFrame r f
  (res, !dispatchCrashesProcess panics res.dispatches)

/-- A sample connected client state over handler ids, for witnesses. -/
def sampleConnected : WSClient Nat :=
  ⟨"key", "ws://h", "tok", some 7, true, [("message.create", [0])], true, 5, 10⟩

/-- A sample disconnected client state over handler ids, for witnesses. -/
def sampleDisconnected : WSClient Nat :=
  ⟨"key", "ws://h", "tok", none, false, [], false, 5, 10⟩

/-- Fields of a message frame whose source collides with an original
senderId field and whose conversationID is a number, not a string. -/
def msgCexFields : List (String × Json) :=
  [("type", Json.str "message"), ("source", Json.str "u1"),
   ("senderId", Json.str "orig"), ("conversationID", Json.num 5)]

/-- Handler table with one handler for message.create and one for the
conversation-scoped key that a numeric conversationID would synthesize. -/
def msgCexReg : Registry Nat :=
  [("message.create", [0]), ("conversation:5:message.create", [1])]

/-- Fields of the well-formed message frame of the spec example. -/
def msgOkFields : List (String × Json) :=
  [("type", Json.str "message"), ("source", Json.str "u1"),
   ("conversationID", Json.str "c1"), ("message", Json.str "hi"),
   ("timestamp", Json.num 1700000000)]

/-- Handler table with handlers for message.create and for the
conversation c1 scoped key. -/
def msgOkReg : Registry Nat :=
  [("message.create", [0]), ("conversation:c1:message.create", [1])]

/-- Fields of a message frame that carries a literal conversationId field
(exact key, lower case d) but no conversationID field. -/
def convCexFields : List (String × Json) :=
  [("type", Json.str "message"), ("conversationId", Json.str "c9")]

/-- Handler table with a message.create handler and a handler for the
conversation c9 scoped key. -/
def convCexReg : Registry Nat :=
  [("message.create", [2]), ("conversation:c9:message.create", [3])]

/-- Handler table with one handler registered under the event name evt. -/
def evtReg : Registry Nat := [("evt", [5])]

/-- A generic event frame of type evt carrying numeric data. -/
def evtFrame : Frame := .json (.obj [("type", Json.str "evt"), ("data", Json.num 7)])

/-- Handler table with one handler registered under the empty event name. -/
def emptyNameReg : Registry Nat := [("", [4])]

/-- Fields of a valid JSON object frame that has no type key. -/
def noTypeFields : List (String × Json) := [("x", Json.num 1)]

/-- Handler table with handlers registered under the names subscribed and
pong, to observe that those frame types still dispatch nothing. -/
def subPongReg : Registry Nat := [("subscribed", [8]), ("pong", [9])]

end Client

namespace Client

theorem jlookup_jset_self (m : JMap) (k : String) (v : Json) :
    jlookup (jset m k v) k = some v := by
  induction m with
  | nil => simp [jset, jlookup]
  | cons p rest ih =>
    by_cases h : p.1 = k
    · cases p; simp_all [jset, jlookup]
    · cases p; simp_all [jset, jlookup]

theorem jlookup_jset_ne (m : JMap) (k k' : String) (v : Json) (h : k' ≠ k) :
    jlookup (jset m k v) k' = jlookup m k' := by
  induction m with
  | nil => simp [jset, jlookup, Ne.symm h]
  | cons p rest ih =>
    by_cases hp : p.1 = k
    · cases p with
      | mk a b =>
        simp only at hp
        simp [jset, hp, jlookup, Ne.symm h]
    · cases p with
      | mk a b =>
        simp only at hp
        by_cases hp' : a = k' <;> simp [jset, hp, jlookup, hp', ih, h]

theorem jlookup_transformMsg_other (m : JMap) (k : String)
    (hk1 : k ≠ "senderId") (hk2 : k ≠ "conversationId") (hk3 : k ≠ "content") :
    jlookup (transformMsg m) k = jlookup m k := by
  unfold transformMsg
  cases hs : jlookup m "source" <;>
    cases hc : jlookup m "conversationID" <;>
      cases hm : jlookup m "message" <;>
        simp [jlookup_jset_ne, hk1, hk2, hk3]

theorem jlookup_transformMsg_senderId (m : JMap) :
    jlookup (transformMsg m) "senderId" =
      match jlookup m "source" with
      | some v => some v
      | none => jlookup m "senderId" := by
  unfold transformMsg
  cases hs : jlookup m "source" <;>
    cases hc : jlookup m "conversationID" <;>
      cases hm : jlookup m "message" <;>
        simp [jlookup_jset_ne, jlookup_jset_self]

theorem jlookup_transformMsg_conversationId (m : JMap) :
    jlookup (transformMsg m) "conversationId" =
      match jlookup m "conversationID" with
      | some v => some v
      | none => jlookup m "conversationId" := by
  unfold transformMsg
  cases hs : jlookup m "source" <;>
    cases hc : jlookup m "conversationID" <;>
      cases hm : jlookup m "message" <;>
        simp [jlookup_jset_ne, jlookup_jset_self]

theorem jlookup_transformMsg_content (m : JMap) :
    jlookup (transformMsg m) "content" =
      match jlookup m "message" with
      | some v => some v
      | none => jlookup m "content" := by
  unfold transformMsg
  cases hs : jlookup m "source" <;>
    cases hc : jlookup m "conversationID" <;>
      cases hm : jlookup m "message" <;>
        simp [jlookup_jset_ne, jlookup_jset_self]

theorem regGet_On_self (r : Registry H) (e : String) (h : H) :
    regGet (On r e h) e = regGet r e ++ [h] := by
  induction r with
  | nil => simp [On, regGet]
  | cons p rest ih =>
    by_cases hp : p.1 = e
    · cases p; simp_all [On, regGet]
    · cases p; simp_all [On, regGet]

theorem listenFrames_foldl (r : Registry H) (fs : List Frame) (acc : List (H × Json)) :
    fs.foldl (fun a f => a ++ (routeFrame r f).dispatches) acc = acc ++ listenFrames r fs := by
  induction fs generalizing acc with
  | nil => simp [listenFrames]
  | cons f rest ih =>
    simp only [listenFrames, List.foldl_cons, List.nil_append] at *
    rw [ih, ih ((routeFrame r f).dispatches), List.append_assoc]

theorem listenFrames_cons (r : Registry H) (f : Frame) (fs : List Frame) :
    listenFrames r (f :: fs) = (routeFrame r f).dispatches ++ listenFrames r fs := by
  simp only [listenFrames, List.foldl_cons, List.nil_append]
  exact listenFrames_foldl r fs _

theorem routeFrame_message (r : Registry H) (fields : List (String × Json))
    (hty : jlookup (toMap fields) "type" = some (Json.str "message")) :
    routeFrame r (.json (.obj fields)) =
      ⟨(regGet r "message.create").map
          (fun h => (h, Json.obj (transformMsg (toMap fields)))) ++
        (match jlookup (transformMsg (toMap fields)) "conversationId" with
         | some (.str cid) =>
           (regGet r ("conversation:" ++ cid ++ ":message.create")).map
             (fun h => (h, Json.obj (transformMsg (toMap fields))))
         | _ => []), []⟩ := by
  simp [routeFrame, decodeEnvelope, decodeObject, hty]

/-- C2: Connect is idempotent. When the state is already Connected,
Connect returns success (nil) immediately, attempts no dial, starts no
second read loop, and leaves the state - in particular the single
installed socket handle - unchanged, so at most one active socket handle
exists per client instance. -/
theorem connect_idempotent_when_connected (c : WSClient H) (dial : String → DialResult)
    (h : c.isConnected = true) :
    Connect c dial = ⟨c, none, none, false⟩ := by
  simp [Connect, h]

theorem connect_idempotent_witness :
    sampleConnected.isConnected = true ∧
    Connect sampleConnected (fun _ => .ok 99) = ⟨sampleConnected, none, none, false⟩ :=
  ⟨rfl, connect_idempotent_when_connected sampleConnected (fun _ => .ok 99) rfl⟩

/-- C8: when the state is Disconnected and the dial of the built URL
fails, Connect returns the dial error, the state is unchanged (still
Disconnected, no socket handle installed) and no read loop is started. -/
theorem connect_dial_failure (c : WSClient H) (dial : String → DialResult) (e : String)
    (h1 : c.isConnected = false)
    (h2 : dial (c.wsUrl ++ "/ws?token=" ++ c.accessToken) = .err e) :
    Connect c dial = ⟨c, some e, some (c.wsUrl ++ "/ws?token=" ++ c.accessToken), false⟩ := by
  simp [Connect, h1, h2]

theorem connect_dial_failure_witness :
    sampleDisconnected.isConnected = false ∧
    Connect sampleDisconnected (fun _ => .err "connection refused") =
      ⟨sampleDisconnected, some "connection refused", some "ws://h/ws?token=tok", false⟩ :=
  ⟨rfl, connect_dial_failure sampleDisconnected (fun _ => .err "connection refused")
    "connection refused" rfl rfl⟩

/-- C7: Send while Disconnected fails with the not-connected error and
passes nothing to the socket; while Connected it hands exactly the one
serialized payload frame to the socket write, succeeds exactly when the
write succeeds, and surfaces a write failure as a transport error. -/
theorem send_connection_gating (c : WSClient H) (payload : Json)
    (write : Json → Option String) (e : String) :
    (c.isConnected = false → Send c payload write = (some .notConnected, [])) ∧
    (c.isConnected = true → (Send c payload write).2 = [payload]) ∧
    (c.isConnected = true → ((Send c payload write).1 = none ↔ write payload = none)) ∧
    (c.isConnected = true → write payload = some e →
      (Send c payload write).1 = some (.transport e)) := by
  refine ⟨fun h => by simp [Send, h], fun h => ?_, fun h => ?_, fun h hw => ?_⟩
  · cases hw : write payload <;> simp [Send, h, hw]
  · cases hw : write payload <;> simp [Send, h, hw]
  · simp [Send, h, hw]

theorem send_connection_gating_witness :
    sampleDisconnected.isConnected = false ∧
    Send sampleDisconnected (Json.str "m") (fun _ => none) = (some .notConnected, []) ∧
    (Send sampleConnected (Json.str "m") (fun _ => none)).1 = none ∧
    (Send sampleConnected (Json.str "m") (fun _ => none)).2 = [Json.str "m"] ∧
    (Send sampleConnected (Json.str "m") (fun _ => some "broken pipe")).1 =
      some (.transport "broken pipe") :=
  ⟨rfl,
   (send_connection_gating sampleDisconnected (Json.str "m") (fun _ => none) "x").1 rfl,
   ((send_connection_gating sampleConnected (Json.str "m") (fun _ => none) "x").2.2.1 rfl).mpr rfl,
   (send_connection_gating sampleConnected (Json.str "m") (fun _ => none) "x").2.1 rfl,
   (send_connection_gating sampleConnected (Json.str "m")
     (fun _ => some "broken pipe") "broken pipe").2.2.2 rfl rfl⟩

/-- C5: an inbound frame whose envelope decodes with type subscribed only
writes the confirmation log line and dispatches to no handler, and a frame
whose envelope decodes with type pong dispatches nothing and logs nothing,
for every handler table - including tables with handlers registered under
the names subscribed or pong. -/
theorem subscribed_pong_no_dispatch (r : Registry H) (f g : Frame) (d d' : Json) :
    (decodeEnvelope f = some ("subscribed", d) →
      routeFrame r f = ⟨[], ["Subscribed to events"]⟩) ∧
    (decodeEnvelope g = some ("pong", d') → routeFrame r g = ⟨[], []⟩) := by
  constructor <;> intro h <;> simp [routeFrame, h]

theorem subscribed_pong_no_dispatch_witness :
    decodeEnvelope (.json (.obj [("type", Json.str "subscribed")])) =
      some ("subscribed", Json.null) ∧
    routeFrame subPongReg (.json (.obj [("type", Json.str "subscribed")])) =
      ⟨[], ["Subscribed to events"]⟩ ∧
    routeFrame subPongReg (.json (.obj [("type", Json.str "pong"), ("data", Json.num 1)])) =
      ⟨[], []⟩ :=
  ⟨rfl,
   (subscribed_pong_no_dispatch subPongReg
     (.json (.obj [("type", Json.str "subscribed")]))
     (.json (.obj [("type", Json.str "pong"), ("data", Json.num 1)]))
     Json.null (Json.num 1)).1 rfl,
   (subscribed_pong_no_dispatch subPongReg
     (.json (.obj [("type", Json.str "subscribed")]))
     (.json (.obj [("type", Json.str "pong"), ("data", Json.num 1)]))
     Json.null (Json.num 1)).2 rfl⟩

/-- C9: On appends to the ordered handler list of the event, creating it
if absent, with no deduplication; after registering h1 then h2, one
dispatch through Emit initiates each exactly once, h1 at the position
right after the previously registered handlers and h2 right after h1, in
registration order, each with the dispatched payload. -/
theorem on_append_emit_order [DecidableEq H] (r : Registry H) (e : String)
    (h1 h2 : H) (d : Json)
    (hm1 : h1 ∉ regGet r e) (hm2 : h2 ∉ regGet r e) (hne : h1 ≠ h2) :
    regGet (On (On r e h1) e h2) e = regGet r e ++ [h1, h2] ∧
    Emit (On (On r e h1) e h2) e d = (regGet r e ++ [h1, h2]).map (fun h => (h, d)) ∧
    ((Emit (On (On r e h1) e h2) e d).map Prod.fst).count h1 = 1 ∧
    ((Emit (On (On r e h1) e h2) e d).map Prod.fst).count h2 = 1 ∧
    (Emit (On (On r e h1) e h2) e d)[(regGet r e).length]? = some (h1, d) ∧
    (Emit (On (On r e h1) e h2) e d)[(regGet r e).length + 1]? = some (h2, d) := by
  have hreg : regGet (On (On r e h1) e h2) e = regGet r e ++ [h1, h2] := by
    rw [regGet_On_self, regGet_On_self, List.append_assoc]
    rfl
  have hemit : Emit (On (On r e h1) e h2) e d =
      (regGet r e ++ [h1, h2]).map (fun h => (h, d)) := by
    rw [Emit, hreg]
  have hfst : (Emit (On (On r e h1) e h2) e d).map Prod.fst = regGet r e ++ [h1, h2] := by
    rw [hemit, List.map_map]
    have hid : (Prod.fst ∘ fun h : H => (h, d)) = id := funext (fun _ => rfl)
    rw [hid, List.map_id]
  refine ⟨hreg, hemit, ?_, ?_, ?_, ?_⟩
  · rw [hfst, List.count_append]
    rw [List.count_eq_zero.mpr hm1]
    simp [List.count_cons, hne]
  · rw [hfst, List.count_append]
    rw [List.count_eq_zero.mpr hm2]
    simp [List.count_cons, Ne.symm hne]
  · rw [hemit, List.map_append]
    rw [List.getElem?_append_right (by simp)]
    simp
  · rw [hemit, List.map_append]
    rw [List.getElem?_append_right (by simp)]
    simp

theorem on_append_emit_order_witness :
    (0 : Nat) ∉ regGet ([] : Registry Nat) "chat" ∧
    Emit (On (On ([] : Registry Nat) "chat" 0) "chat" 1) "chat" (Json.str "x") =
      [(0, Json.str "x"), (1, Json.str "x")] ∧
    (Emit (On (On ([] : Registry Nat) "chat" 0) "chat" 1) "chat" (Json.str "x"))[0]? =
      some (0, Json.str "x") := by
  have h := on_append_emit_order ([] : Registry Nat) "chat" 0 1 (Json.str "x")
    (by simp [regGet]) (by simp [regGet]) (by decide)
  exact ⟨by simp [regGet], by rw [h.2.1]; rfl, h.2.2.2.2.1⟩

/-- C4: the stored maximum-reconnect-attempts value is never consulted.
Two client states that differ only in maxReconnectAttempts produce
identical outcomes for Connect, Send, Disconnect and the read-loop
reconnect teardown (their resulting states differ only in that same
stored field); and the teardown makes exactly one Connect attempt per
drop, after sleeping the fixed interval, when auto-reconnect is enabled,
and none otherwise - whatever the configured maximum. -/
theorem maxReconnectAttempts_never_consulted (c : WSClient H) (m : Int)
    (dial : String → DialResult) (payload : Json) (write : Json → Option String) :
    (Connect { c with maxReconnectAttempts := m } dial).error = (Connect c dial).error ∧
    (Connect { c with maxReconnectAttempts := m } dial).dialedUrl =
      (Connect c dial).dialedUrl ∧
    (Connect { c with maxReconnectAttempts := m } dial).startedReadLoop =
      (Connect c dial).startedReadLoop ∧
    (Connect { c with maxReconnectAttempts := m } dial).state =
      { (Connect c dial).state with maxReconnectAttempts := m } ∧
    Send { c with maxReconnectAttempts := m } payload write = Send c payload write ∧
    Disconnect { c with maxReconnectAttempts := m } =
      { Disconnect c with maxReconnectAttempts := m } ∧
    (reconnectTeardown { c with maxReconnectAttempts := m } dial).sleptFor =
      (reconnectTeardown c dial).sleptFor ∧
    (reconnectTeardown { c with maxReconnectAttempts := m } dial).connectAttempts =
      (reconnectTeardown c dial).connectAttempts ∧
    (reconnectTeardown { c with maxReconnectAttempts := m } dial).dialedUrl =
      (reconnectTeardown c dial).dialedUrl ∧
    (reconnectTeardown { c with maxReconnectAttempts := m } dial).state =
      { (reconnectTeardown c dial).state with maxReconnectAttempts := m } ∧
    (reconnectTeardown c dial).connectAttempts = (if c.autoReconnect then 1 else 0) ∧
    (reconnectTeardown c dial).sleptFor =
      (if c.autoReconnect then some c.reconnectInterval else none) := by
  cases c with
  | mk ak wu tk cn ic eh ar ri mx =>
    simp only [Connect, Send, Disconnect, reconnectTeardown]
    by_cases hic : ic <;> by_cases har : ar <;>
      cases cn <;>
        cases hdial : dial (wu ++ "/ws?token=" ++ tk) <;>
          cases hw : write payload <;>
            simp [hic, har, hdial, hw]

/-- C1, counterexample to the claim as stated: on the frame msgCexFields
the original senderId field is not preserved (the source alias overwrites
it), and the transformed map's conversationId is present (the number 5)
yet no conversation-scoped dispatch happens - only the message.create
handler 0 is invoked, never handler 1. -/
theorem message_routing_claim_cex :
    jlookup (toMap msgCexFields) "senderId" = some (Json.str "orig") ∧
    jlookup (transformMsg (toMap msgCexFields)) "senderId" ≠ some (Json.str "orig") ∧
    jlookup (transformMsg (toMap msgCexFields)) "conversationId" = some (Json.num 5) ∧
    (routeFrame msgCexReg (.json (.obj msgCexFields))).dispatches =
      [(0, Json.obj (transformMsg (toMap msgCexFields)))] ∧
    (1, Json.obj (transformMsg (toMap msgCexFields))) ∉
      (routeFrame msgCexReg (.json (.obj msgCexFields))).dispatches := by
  refine ⟨rfl, ?_, rfl, rfl, ?_⟩
  · intro h
    rw [show jlookup (transformMsg (toMap msgCexFields)) "senderId" =
      some (Json.str "u1") from rfl] at h
    simp at h
  · rw [show (routeFrame msgCexReg (.json (.obj msgCexFields))).dispatches =
      [(0, Json.obj (transformMsg (toMap msgCexFields)))] from rfl]
    simp

/-- C1 (amended): a frame decoding as an object with type message is
re-decoded as a map and transformed; every key other than senderId,
conversationId and content keeps its original value, while senderId,
conversationId and content take the values of source, conversationID and
message respectively when those are present (overwriting any original
field of the alias name) and keep their original values otherwise. The
transformed map goes to every message.create handler and, exactly when
its conversationId is a string id, also to every handler of the
synthesized conversation scoped key. -/
theorem message_routing_amended (r : Registry H) (fields : List (String × Json)) (k : String)
    (hty : jlookup (toMap fields) "type" = some (Json.str "message"))
    (hk1 : k ≠ "senderId") (hk2 : k ≠ "conversationId") (hk3 : k ≠ "content") :
    routeFrame r (.json (.obj fields)) =
      ⟨(regGet r "message.create").map
          (fun h => (h, Json.obj (transformMsg (toMap fields)))) ++
        (match jlookup (transformMsg (toMap fields)) "conversationId" with
         | some (.str cid) =>
           (regGet r ("conversation:" ++ cid ++ ":message.create")).map
             (fun h => (h, Json.obj (transformMsg (toMap fields))))
         | _ => []), []⟩ ∧
    jlookup (transformMsg (toMap fields)) k = jlookup (toMap fields) k ∧
    jlookup (transformMsg (toMap fields)) "senderId" =
      (match jlookup (toMap fields) "source" with
       | some v => some v
       | none => jlookup (toMap fields) "senderId") ∧
    jlookup (transformMsg (toMap fields)) "conversationId" =
      (match jlookup (toMap fields) "conversationID" with
       | some v => some v
       | none => jlookup (toMap fields) "conversationId") ∧
    jlookup (transformMsg (toMap fields)) "content" =
      (match jlookup (toMap fields) "message" with
       | some v => some v
       | none => jlookup (toMap fields) "content") :=
  ⟨routeFrame_message r fields hty,
   jlookup_transformMsg_other (toMap fields) k hk1 hk2 hk3,
   jlookup_transformMsg_senderId (toMap fields),
   jlookup_transformMsg_conversationId (toMap fields),
   jlookup_transformMsg_content (toMap fields)⟩

theorem message_routing_amended_witness :
    jlookup (toMap msgOkFields) "type" = some (Json.str "message") ∧
    (routeFrame msgOkReg (.json (.obj msgOkFields))).dispatches =
      [(0, Json.obj (transformMsg (toMap msgOkFields))),
       (1, Json.obj (transformMsg (toMap msgOkFields)))] ∧
    jlookup (transformMsg (toMap msgOkFields)) "senderId" = some (Json.str "u1") ∧
    jlookup (transformMsg (toMap msgOkFields)) "conversationId" = some (Json.str "c1") ∧
    jlookup (transformMsg (toMap msgOkFields)) "content" = some (Json.str "hi") ∧
    jlookup (transformMsg (toMap msgOkFields)) "timestamp" =
      jlookup (toMap msgOkFields) "timestamp" := by
  have h := message_routing_amended msgOkReg msgOkFields "timestamp" rfl
    (by decide) (by decide) (by decide)
  refine ⟨rfl, ?_, ?_, ?_, ?_, h.2.1⟩
  · rw [h.1]
    rfl
  · rw [h.2.2.1]
    rfl
  · rw [h.2.2.2.1]
    rfl
  · rw [h.2.2.2.2]
    rfl

/-- C10, counterexample to the claim as stated: the frame convCexFields
has no conversationID field at all (so in particular no string one), yet
the conversation-scoped dispatch to the conversation c9 key occurs,
because the code tests the transformed map's conversationId, which here
comes from a literal conversationId field of the frame. -/
theorem conversation_dispatch_claim_cex :
    jlookup (toMap convCexFields) "conversationID" = none ∧
    (routeFrame convCexReg (.json (.obj convCexFields))).dispatches =
      [(2, Json.obj (transformMsg (toMap convCexFields))),
       (3, Json.obj (transformMsg (toMap convCexFields)))] :=
  ⟨rfl, rfl⟩

/-- C10 (amended): for a message frame the conversation-scoped dispatch is
keyed on the transformed map's conversationId; when the frame's
conversationID is present with a non-string value, that value becomes the
transformed conversationId, so only the message.create handlers are
dispatched and no conversation-scoped dispatch occurs. -/
theorem conversation_dispatch_string_only (r : Registry H)
    (fields : List (String × Json)) (v : Json)
    (hty : jlookup (toMap fields) "type" = some (Json.str "message"))
    (hpres : jlookup (toMap fields) "conversationID" = some v)
    (hns : ∀ s, v ≠ Json.str s) :
    jlookup (transformMsg (toMap fields)) "conversationId" = some v ∧
    (routeFrame r (.json (.obj fields))).dispatches =
      (regGet r "message.create").map
        (fun h => (h, Json.obj (transformMsg (toMap fields)))) := by
  have ht := jlookup_transformMsg_conversationId (toMap fields)
  rw [hpres] at ht
  refine ⟨ht, ?_⟩
  rw [routeFrame_message r fields hty]
  rw [ht]
  cases v with
  | str s => exact absurd rfl (hns s)
  | null => simp
  | bool b => simp
  | num n => simp
  | arr xs => simp
  | obj fs => simp

theorem conversation_dispatch_string_only_witness :
    jlookup (toMap msgCexFields) "conversationID" = some (Json.num 5) ∧
    jlookup (transformMsg (toMap msgCexFields)) "conversationId" = some (Json.num 5) ∧
    (routeFrame msgCexReg (.json (.obj msgCexFields))).dispatches =
      [(0, Json.obj (transformMsg (toMap msgCexFields)))] := by
  have h := conversation_dispatch_string_only msgCexReg msgCexFields (Json.num 5)
    rfl rfl (fun s => by simp)
  exact ⟨rfl, h.1, by rw [h.2]; rfl⟩

/-- C6, counterexample to the claim as stated: a valid JSON object frame
with no type key is not discarded; it decodes with the zero-value type,
the empty string, and is dispatched down the generic path, here to the
handler registered under the empty event name. -/
theorem missing_type_discarded_cex :
    jlookup (toMap noTypeFields) "type" = none ∧
    (routeFrame emptyNameReg (.json (.obj noTypeFields))).dispatches = [(4, Json.null)] ∧
    (routeFrame emptyNameReg (.json (.obj noTypeFields))).dispatches ≠ [] := by
  refine ⟨rfl, rfl, ?_⟩
  rw [show (routeFrame emptyNameReg (.json (.obj noTypeFields))).dispatches =
    [(4, Json.null)] from rfl]
  simp

/-- C6 (amended): a frame that is not valid JSON is silently discarded -
no dispatch, no log - and the read loop survives and keeps routing, so a
subsequent well-formed frame dispatches as it would alone (routing is
per-frame and stateless). A valid JSON object frame without a type key is
not discarded by the decoder: it gets the zero-value type, the empty
string, and is routed down the generic path under the empty event name -
observably a no-op exactly when no handler is registered under that
name. -/
theorem malformed_frame_amended (r : Registry H) (fields : List (String × Json))
    (fs : List Frame) (f : Frame) (p : H → Json → Bool)
    (hmt : jlookup (toMap fields) "type" = none) :
    routeFrame r Frame.invalid = ⟨[], []⟩ ∧
    (listenStep r Frame.invalid p).2 = true ∧
    (routeFrame r (.json (.obj fields))).dispatches =
      (regGet r "").map (fun h => (h, (jlookup (toMap fields) "data").getD Json.null)) ∧
    (regGet r "" = [] → (routeFrame r (.json (.obj fields))).dispatches = []) ∧
    listenFrames r (Frame.invalid :: fs) = listenFrames r fs ∧
    listenFrames r [f] = (routeFrame r f).dispatches := by
  have hobj : (routeFrame r (.json (.obj fields))).dispatches =
      (regGet r "").map (fun h => (h, (jlookup (toMap fields) "data").getD Json.null)) := by
    simp [routeFrame, decodeEnvelope, hmt]
  refine ⟨rfl, rfl, hobj, fun hempty => ?_, ?_, ?_⟩
  · rw [hobj, hempty]
    rfl
  · rw [listenFrames_cons]
    rfl
  · rw [listenFrames_cons]
    simp [listenFrames]

theorem malformed_frame_amended_witness :
    jlookup (toMap noTypeFields) "type" = none ∧
    (listenStep emptyNameReg Frame.invalid (fun _ _ => true)).2 = true ∧
    (routeFrame emptyNameReg (.json (.obj noTypeFields))).dispatches =
      (regGet emptyNameReg "").map
        (fun h => (h, (jlookup (toMap noTypeFields) "data").getD Json.null)) ∧
    listenFrames emptyNameReg [Frame.invalid, evtFrame] = listenFrames emptyNameReg [evtFrame] := by
  have h := malformed_frame_amended emptyNameReg noTypeFields [evtFrame] evtFrame
    (fun _ _ => true) rfl
  exact ⟨rfl, h.2.1, h.2.2.1, h.2.2.2.2.1⟩

/-- C3, counterexample to the claim as stated: the frame evtFrame
dispatches to the registered handler 5, and when that handler panics the
read loop does not survive - the handler runs in a bare goroutine with no
recover, so its panic takes down the whole process, read loop included. -/
theorem handler_panic_crashes_loop_cex :
    (routeFrame evtReg evtFrame).dispatches = [(5, Json.num 7)] ∧
    (listenStep evtReg evtFrame (fun _ _ => true)).2 = false :=
  ⟨rfl, rfl⟩

/-- C3 (amended): dispatch is fire-and-forget - what the router dispatches
and logs is a function of the handler table and the frame alone,
unaffected by how handlers behave, and no handler failure is propagated
into any router output; but per-handler failures are not isolated: the
read loop dies exactly when some dispatched handler panics on its
payload, since handlers run as bare goroutines without recover. -/
theorem dispatch_fire_and_forget_amended (r : Registry H) (f : Frame)
    (p p' : H → Json → Bool) :
    (listenStep r f p).1 = routeFrame r f ∧
    (listenStep r f p).1 = (listenStep r f p').1 ∧
    ((listenStep r f p).2 = false ↔
      (routeFrame r f).dispatches.any (fun hd => p hd.1 hd.2) = true) := by
  refine ⟨rfl, rfl, ?_⟩
  simp [listenStep, dispatchCrashesProcess, handlerRecoverInstalled]

end Client
